import Mathlib

/-!
Verification of the sensor core of `extras/mmu_sensors.py` (Happy Hare MMU).

The Python classes are shallowly embedded as Lean structures and pure
functions.  Conventions used throughout:

* Times and analog values (Python floats) are modelled as exact rationals `ℚ`.
* The Klipper reactor sentinel `reactor.NEVER` (the float 9999999999999999.)
  is the rational constant `NEVER`.
* Python `None` becomes `Option.none`; the three-valued
  `runout_suspended` field (`None` / `True` / `False`) is `Option Bool`.
* `reactor.register_callback(...)` (deferred execution of an event handler)
  is modelled by returning the registered handler as a `Pending` value next
  to the successor state; `none` means no callback was registered.
* Collaborators are passed as explicit arguments: the print-activity oracle
  becomes a boolean `isPrinting`, the gcode script executor becomes a
  function `String → Except String Unit`, and `reactor.monotonic()` at a
  call site becomes an explicit `now` argument.
-/

/-- Klipper `reactor.NEVER` sentinel (9999999999999999.). -/
def NEVER : ℚ := 9999999999999999

/-- The dict of response gcode macros handed to `MmuRunoutHelper.__init__`
(keys `insert`, `remove`, `runout`, `clog`, `tangle`; each value is either a
macro string or `None`). -/
structure Gcodes where
  insertG : Option String
  removeG : Option String
  runoutG : Option String
  clogG : Option String
  tangleG : Option String
  deriving Repr, DecidableEq

/-- Dict lookup `self.gcodes.get(event_type)` by event-type key. -/
def Gcodes.get (g : Gcodes) (k : String) : Option String :=
  if k = "insert" then g.insertG
  else if k = "remove" then g.removeG
  else if k = "runout" then g.runoutG
  else if k = "clog" then g.clogG
  else if k = "tangle" then g.tangleG
  else none

/-- Python truthiness of a gcode entry: `if insert_gcode:` is false both for
`None` and for the empty string (the class docstring allows either to
disable an event). -/
def gcodeSet : Option String → Bool
  | none => false
  | some s => s ≠ ""

/-- A deferred event handler registered with `reactor.register_callback`.
`runoutEv` carries the `event_type` string because
`_runout_event_handler(eventtime, event_type)` serves `runout`, `clog` and
`tangle` alike. -/
inductive Pending where
  | insertEv (eventtime : ℚ)
  | removeEv (eventtime : ℚ)
  | runoutEv (eventtime : ℚ) (eventType : String)
  deriving Repr, DecidableEq

/-- Mutable state of `MmuRunoutHelper` (fields assigned in `__init__`,
lines 65-81) together with its immutable per-instance configuration.
`hasButtonHandler` models whether the `button_handler` constructor argument
was a callable (`None` ⇒ `false`). -/
structure RunoutHelper where
  name : String
  gcodes : Gcodes
  insertRemoveInPrint : Bool
  hasButtonHandler : Bool
  minEventSystime : ℚ
  eventDelay : ℚ
  filamentPresent : Bool
  sensorEnabled : Bool
  runoutSuspended : Option Bool
  buttonHandlerSuspended : Bool
  deriving Repr, DecidableEq

/-- Model of `MmuRunoutHelper.__init__` state initialisation (lines 76-81):
`min_event_systime = reactor.NEVER`, `filament_present = False`,
`sensor_enabled = True`, `runout_suspended = None`,
`button_handler_suspended = False`. -/
def RunoutHelper.init (name : String) (eventDelay : ℚ) (gcodes : Gcodes)
    (insertRemoveInPrint : Bool) (hasButtonHandler : Bool) : RunoutHelper :=
  { name := name
    gcodes := gcodes
    insertRemoveInPrint := insertRemoveInPrint
    hasButtonHandler := hasButtonHandler
    minEventSystime := NEVER
    eventDelay := eventDelay
    filamentPresent := false
    sensorEnabled := true
    runoutSuspended := none
    buttonHandlerSuspended := false }

/-- Model of `MmuRunoutHelper._handle_ready`: opens the suppression window until a
fixed 2.0 s warm-up delay after system-ready. -/
def RunoutHelper.handleReady (h : RunoutHelper) (monotonicNow : ℚ) : RunoutHelper :=
  { h with minEventSystime := monotonicNow + 2 }

/-- Model of `MmuRunoutHelper._process_state_change` (lines 157-200).  The
print-activity oracle (`print_stats` / `idle_timeout` lookup) is the
`isPrinting` argument.  Returns the successor state and the handler
registered with `reactor.register_callback` (if any). -/
def processStateChange (h : RunoutHelper) (eventtime : ℚ)
    (isFilamentPresent : Bool) (isPrinting : Bool) :
    RunoutHelper × Option Pending :=
  -- self.gcodes.get("insert") etc. with literal keys: direct field access
  let insertGcode := h.gcodes.insertG
  let removeGcode := h.gcodes.removeG
  let runoutGcode := h.gcodes.runoutG
  if isFilamentPresent && gcodeSet insertGcode then
    -- Insert detected
    if !isPrinting || (isPrinting && h.insertRemoveInPrint) then
      ({ h with minEventSystime := NEVER }, some (.insertEv eventtime))
    else
      (h, none)
  else
    -- Remove or Runout detected
    if isPrinting && (h.runoutSuspended = some false) && gcodeSet runoutGcode then
      ({ h with minEventSystime := NEVER }, some (.runoutEv eventtime "runout"))
    else if gcodeSet removeGcode && (!isPrinting || h.insertRemoveInPrint) then
      ({ h with minEventSystime := NEVER }, some (.removeEv eventtime))
    else
      (h, none)

/-- Result of one `note_filament_present` call: successor state, whether the
button handler was invoked synchronously, and the deferred handler
registered (if any). -/
structure NoteResult where
  state : RunoutHelper
  buttonInvoked : Bool
  pending : Option Pending
  deriving Repr, DecidableEq

/-- Model of `MmuRunoutHelper.note_filament_present` (lines 135-155), in the
two-argument form `(eventtime, is_filament_present)` used by every sensor in
this module (the one-argument compatibility form merely substitutes
`reactor.monotonic()` for the missing eventtime). -/
def noteFilamentPresent (h : RunoutHelper) (eventtime : ℚ)
    (isFilamentPresent : Bool) (isPrinting : Bool) : NoteResult :=
  let prev := h.filamentPresent
  let h := { h with filamentPresent := isFilamentPresent }
  let buttonInvoked := h.hasButtonHandler && !h.buttonHandlerSuspended
  if prev = isFilamentPresent then
    { state := h, buttonInvoked := buttonInvoked, pending := none }
  else if h.minEventSystime ≤ eventtime && h.sensorEnabled then
    let hp := processStateChange h eventtime isFilamentPresent isPrinting
    { state := hp.1, buttonInvoked := buttonInvoked, pending := hp.2 }
  else
    { state := h, buttonInvoked := buttonInvoked, pending := none }

/-- Model of `MmuRunoutHelper.note_clog_tangle` (lines 202-211), with the eventtime
given explicitly (the `None` branch merely substitutes
`reactor.monotonic()`). -/
def noteClogTangle (h : RunoutHelper) (eventType : String) (eventtime : ℚ) :
    RunoutHelper × Option Pending :=
  ({ h with minEventSystime := NEVER }, some (.runoutEv eventtime eventType))

/-- Model of `MmuRunoutHelper._exec_gcode` (lines 122-130).  `runScript` is the
external `gcode.run_script` executor, which may raise (`Except.error`).
The Python `try/except` is the `match` on the executor's result: an error
is converted into a log line and never re-raised (the function's return
type is a plain pair, not `Except`).  In every case
`min_event_systime = reactor.monotonic() + event_delay` afterwards. -/
def execGcode (h : RunoutHelper) (command : Option String)
    (runScript : String → Except String Unit) (monotonicNow : ℚ) :
    RunoutHelper × List String :=
  let log : List String :=
    match command with
    | none => []
    | some cmd =>
      match runScript cmd with
      | .ok _ => []
      | .error _ => ["MMU: Error running mmu sensor handler: " ++ cmd]
  ({ h with minEventSystime := monotonicNow + h.eventDelay }, log)

/-- Model of `MmuRunoutHelper._insert_event_handler` (lines 101-105). -/
def insertEventHandler (h : RunoutHelper) (eventtime : ℚ)
    (runScript : String → Except String Unit) (monotonicNow : ℚ) :
    RunoutHelper × List String :=
  let insertGcode := h.gcodes.insertG
  execGcode h
    (if gcodeSet insertGcode then
      some ((insertGcode.getD "") ++ " EVENTTIME=" ++ toString eventtime)
    else none)
    runScript monotonicNow

/-- Model of `MmuRunoutHelper._remove_event_handler` (lines 107-111). -/
def removeEventHandler (h : RunoutHelper) (eventtime : ℚ)
    (runScript : String → Except String Unit) (monotonicNow : ℚ) :
    RunoutHelper × List String :=
  let removeGcode := h.gcodes.removeG
  execGcode h
    (if gcodeSet removeGcode then
      some ((removeGcode.getD "") ++ " EVENTTIME=" ++ toString eventtime)
    else none)
    runScript monotonicNow

/-- Model of `MmuRunoutHelper._runout_event_handler` (lines 113-120): requests the
immediate print pause first (returned as the boolean flag) and then runs the
response for the given event type. -/
def runoutEventHandler (h : RunoutHelper) (eventtime : ℚ) (eventType : String)
    (runScript : String → Except String Unit) (monotonicNow : ℚ) :
    (RunoutHelper × List String) × Bool :=
  let pauseSent := true  -- pause_resume.send_pause_command()
  let handlerGcode := h.gcodes.get eventType
  (execGcode h
    (if gcodeSet handlerGcode then
      some ((handlerGcode.getD "") ++ " EVENTTIME=" ++ toString eventtime)
    else none)
    runScript monotonicNow, pauseSent)

/-- Model of `MmuRunoutHelper.enable_runout` (lines 213-214). -/
def enableRunout (h : RunoutHelper) (restore : Bool) : RunoutHelper :=
  { h with runoutSuspended := some (!restore) }

/-! ## `MmuAdcSensorBase` / `MmuAdcSwitchSensor` (lines 243-575) -/

/-- Clamp step `adc = max(0.00001, min(0.99999, read_value))` on the raw
sample to `[1e-5, 1 - 1e-5]` (line 535). -/
def clampAdc (v : ℚ) : ℚ := max (1/100000) (min (99999/100000) v)

/-- Resistance `r = self.pullup * adc / (1.0 - adc)` of the
clamped sample (line 536). -/
def adcResistance (pullup v : ℚ) : ℚ :=
  pullup * clampAdc v / (1 - clampAdc v)

/-- Presence test `is_present = r >= self.a_min and r <= self.a_max` (line 539). -/
def adcIsPresent (aMin aMax pullup v : ℚ) : Bool :=
  decide (aMin ≤ adcResistance pullup v) && decide (adcResistance pullup v ≤ aMax)

/-- State of `MmuAdcSwitchSensor`, including the endstop fields it inherits
from `MmuAdcSensorBase.__init__` (lines 248-253).  The reactor completion
object `_trigger_completion` is `none` when the Python attribute is `None`,
and `some completed` when a completion object exists (`completed` records
whether `.complete(True)` has been called on it). -/
structure AdcSwitchSensor where
  helper : RunoutHelper
  aMin : ℚ
  aMax : ℚ
  pullup : ℚ
  adcDebounceTime : ℚ
  lastButton : Option Bool
  lastPressed : Option Bool
  lastDebouncetime : ℚ
  lastReadTime : ℚ
  triggerCompletion : Option Bool
  lastTriggerTime : Option ℚ
  homing : Bool
  triggered : Bool
  deriving Repr, DecidableEq

/-- Model of `MmuAdcSwitchSensor.__init__` (lines 444-529): debounce window fixed at
0.025 s, `last_button = last_pressed = None`, `last_debouncetime = 0`,
gcode macros built from the `insert`/`remove`/`runout` flags, and the
endstop fields cleared by `MmuAdcSensorBase.__init__`. -/
def AdcSwitchSensor.init (name : String) (gate : Option ℕ) (eventDelay : ℚ)
    (aMin aMax : ℚ) (insertF removeF runoutF insertRemoveInPrint : Bool)
    (hasButtonHandler : Bool) (aPullup : ℚ := 4700) : AdcSwitchSensor :=
  let gateSuffix := match gate with
    | some g => " GATE=" ++ toString g
    | none => ""
  let gcodes : Gcodes :=
    { insertG := if insertF then some ("__MMU_SENSOR_INSERT SENSOR=" ++ name ++ gateSuffix) else none
      removeG := if removeF then some ("__MMU_SENSOR_REMOVE SENSOR=" ++ name ++ gateSuffix) else none
      runoutG := if runoutF then some ("__MMU_SENSOR_RUNOUT SENSOR=" ++ name ++ gateSuffix) else none
      clogG := none
      tangleG := none }
  { helper := RunoutHelper.init name eventDelay gcodes insertRemoveInPrint hasButtonHandler
    aMin := aMin
    aMax := aMax
    pullup := aPullup
    adcDebounceTime := 1/40  -- 0.025
    lastButton := none
    lastPressed := none
    lastDebouncetime := 0
    lastReadTime := 0
    triggerCompletion := none
    lastTriggerTime := none
    homing := false
    triggered := false }

/-- Model of `MmuAdcSensorBase.query_endstop` (lines 257-258). -/
def AdcSwitchSensor.queryEndstop (s : AdcSwitchSensor) : Bool :=
  s.helper.filamentPresent

/-- Model of `MmuAdcSensorBase.home_start` (lines 269-279): create a fresh (pending)
completion, clear the trigger time, mark homing active and record the
target; if `filament_present == triggered` already, record `print_time` and
fulfil the completion immediately.  The `sample_time`/`sample_count`/
`rest_time` arguments of the source are unused there and omitted here. -/
def AdcSwitchSensor.homeStart (s : AdcSwitchSensor) (printTime : ℚ)
    (triggered : Bool) : AdcSwitchSensor :=
  let s := { s with triggerCompletion := some false
                    lastTriggerTime := none
                    homing := true
                    triggered := triggered }
  if s.helper.filamentPresent = s.triggered then
    { s with lastTriggerTime := some printTime, triggerCompletion := some true }
  else s

/-- Model of `MmuAdcSensorBase.home_wait` (lines 281-290): clear homing state; raise
the "no trigger" command error when `_last_trigger_time` is `None`,
otherwise return the recorded trigger time.  The `home_end_time` argument
of the source is unused there and omitted here. -/
def AdcSwitchSensor.homeWait (s : AdcSwitchSensor) :
    AdcSwitchSensor × Except String ℚ :=
  let s := { s with homing := false, triggerCompletion := none }
  match s.lastTriggerTime with
  | none => (s, .error ("No trigger on " ++ s.helper.name ++ " after full movement"))
  | some t => (s, .ok t)

/-- The candidate-change half of the debounce logic (lines 542-543):
`if is_present != self.last_button: self.last_debouncetime = read_time`. -/
def debounceTimeUpdate (s : AdcSwitchSensor) (readTime : ℚ) (isPresent : Bool) :
    AdcSwitchSensor :=
  if some isPresent ≠ s.lastButton then { s with lastDebouncetime := readTime } else s

/-- The acceptance condition of the debounce logic (lines 545-549), taken on
the state after `debounceTimeUpdate`: the candidate has been unchanged for
the full debounce window, equals the candidate of the previous report, and
differs from the last accepted value. -/
def debounceAccept (s : AdcSwitchSensor) (readTime : ℚ) (isPresent : Bool) : Bool :=
  decide (s.adcDebounceTime ≤ readTime - s.lastDebouncetime)
    && (s.lastButton = some isPresent) && (s.lastPressed ≠ some isPresent)

/-- Model of `MmuAdcSwitchSensor.adc_callback` (lines 531-566).  Returns the
successor state plus any deferred handler registered via the runout
helper. -/
def adcCallback (s : AdcSwitchSensor) (readTime readValue : ℚ)
    (isPrinting : Bool) : AdcSwitchSensor × Option Pending :=
  let s := { s with lastReadTime := readTime }
  let isPresent := adcIsPresent s.aMin s.aMax s.pullup readValue
  let s := debounceTimeUpdate s readTime isPresent
  if debounceAccept s readTime isPresent then
    let s := { s with lastPressed := some isPresent }
    -- Optimization to only call runout helper if state changed or we have a button handler
    let hp : RunoutHelper × Option Pending :=
      if s.helper.hasButtonHandler = true ∨ isPresent ≠ s.helper.filamentPresent then
        let r := noteFilamentPresent s.helper readTime isPresent isPrinting
        (r.state, r.pending)
      else (s.helper, none)
    let s := { s with helper := hp.1 }
    let s :=
      if s.homing then
        if isPresent = s.triggered then
          if s.triggerCompletion ≠ none then
            { s with lastTriggerTime := some readTime, triggerCompletion := none }
          else s
        else s
      else s
    ({ s with lastButton := some isPresent }, hp.2)
  else
    ({ s with lastButton := some isPresent }, none)

/-! ## `MmuProportionalSensor` (lines 314-440) -/

/-- State of `MmuProportionalSensor`: the calibration derived in `__init__`
(lines 322-358) plus the mutable fields `_last_extreme`, `value_raw` and
`value`.  The source reads `sync_feedback_analog_gamma` as a float
defaulting to 1; the power-law shaping `abs(y) ** gamma` is modelled with a
natural-number exponent, which covers the default `gamma = 1` and every
integer setting. -/
structure PropSensor where
  neutralPoint : ℚ
  gamma : ℕ
  reversedP : Bool
  dNeg : ℚ
  dPos : ℚ
  lastExtreme : Option ℚ
  valueRaw : ℚ
  value : ℚ
  deriving Repr, DecidableEq

/-- Model of `MmuProportionalSensor.__init__` calibration (lines 322-362):
`mid_point = (max_tension + max_compression) / 2` is the default neutral
point, `reversed = max_compression < max_tension`, and the two side spans
`_d_neg` / `_d_pos` are floored at `eps = 1e-12`.  Initially
`_last_extreme = None`, `value_raw = value = 0.0`. -/
def PropSensor.init (maxTension maxCompression : ℚ) (neutralOverride : Option ℚ)
    (gamma : ℕ := 1) : PropSensor :=
  let midPoint := (maxTension + maxCompression) / 2
  let neutralPoint := neutralOverride.getD midPoint
  let reversedP := maxCompression < maxTension
  let eps : ℚ := 1/1000000000000
  let dNeg := if reversedP then max (maxTension - neutralPoint) eps
              else max (neutralPoint - maxTension) eps
  let dPos := if reversedP then max (neutralPoint - maxCompression) eps
              else max (maxCompression - neutralPoint) eps
  { neutralPoint := neutralPoint
    gamma := gamma
    reversedP := reversedP
    dNeg := dNeg
    dPos := dPos
    lastExtreme := none
    valueRaw := 0
    value := 0 }

/-- Model of `MmuProportionalSensor._map_reading` (lines 395-420): linear mapping
around the neutral point with asymmetric spans, optional power-law shaping
preserving the sign, then clamping into `[-1, 1]`. -/
def mapReading (s : PropSensor) (vRaw : ℚ) : ℚ :=
  let n := s.neutralPoint
  let v := vRaw
  let y :=
    if !s.reversedP then
      if n ≤ v then (v - n) / s.dPos else -(n - v) / s.dNeg
    else
      if v ≤ n then (n - v) / s.dPos else -(v - n) / s.dNeg
  let y := if s.gamma ≠ 1 then |y| ^ s.gamma * (if 0 ≤ y then 1 else -1) else y
  let y := if y < -1 then -1 else y
  if 1 < y then 1 else y

/-- Model of `MmuProportionalSensor._adc_callback` (lines 422-433): store the raw and
mapped values; when the mapped magnitude is at least 1, compute
`extreme = abs(self.value)` and publish the event
`("mmu:sync_feedback", read_time, self.value)` only when that `extreme`
differs from `_last_extreme`.  The published event (if any) is the second
component. -/
def propAdcCallback (s : PropSensor) (readTime readValue : ℚ) :
    PropSensor × Option (ℚ × ℚ) :=
  let s := { s with valueRaw := readValue, value := mapReading s readValue }
  if 1 ≤ |s.value| then
    let extreme := |s.value|  -- source comment claims "1 or -1"
    if some extreme ≠ s.lastExtreme then
      ({ s with lastExtreme := some extreme }, some (readTime, s.value))
    else (s, none)
  else (s, none)

/-! ## `MmuHallEndstop` (lines 755-943) -/

/-- Python runtime errors that the embedded operations can surface. -/
inductive PyError where
  | attributeError (attr : String)
  deriving Repr, DecidableEq

/-- Object state of `MmuHallEndstop` as left by `__init__`
(lines 774-861).  Crucially, `__init__` assigns `self.printer` and
`self.name` but — unlike `MmuAdcSensorBase.__init__` (line 246) — never
assigns `self.reactor`; the absent attribute is modelled as the field
`reactor : Option Unit` set to `none`. -/
structure HallEndstop where
  name : String
  reactor : Option Unit
  sampleTime : ℚ
  sampleCount : ℕ
  reportTime : ℚ
  dia1 : ℚ
  rawdia1 : ℤ
  dia2 : ℚ
  rawdia2 : ℤ
  hallMinDiameter : ℚ
  lastFilamentWidthReading : ℤ
  lastFilamentWidthReading2 : ℤ
  diameter : ℚ
  isActive : Bool
  triggerCompletion : Option Bool
  lastTriggerTime : Option ℚ
  homing : Bool
  triggered : Bool
  helper : RunoutHelper
  deriving Repr, DecidableEq

/-- Model of `MmuHallEndstop.__init__` (lines 774-861): every attribute assignment of
the constructor, with `reactor := none` recording that no `self.reactor`
attribute is ever created. -/
def HallEndstop.init (name : String) (calDia1 : ℚ) (rawDia1 : ℤ)
    (calDia2 : ℚ) (rawDia2 : ℤ) (hallRunoutDia : ℚ := 1)
    (insertF removeF runoutF clogF tangleF : Bool := false)
    (sampleTime : ℚ := 1/1000) (sampleCount : ℕ := 8)
    (reportTime : ℚ := 1/100) : HallEndstop :=
  let gcodes : Gcodes :=
    { insertG := if insertF then some ("__MMU_SENSOR_INSERT SENSOR=" ++ name) else none
      removeG := if removeF then some ("__MMU_SENSOR_REMOVE SENSOR=" ++ name) else none
      runoutG := if runoutF then some ("__MMU_SENSOR_RUNOUT SENSOR=" ++ name) else none
      clogG := if clogF then some ("__MMU_SENSOR_CLOG SENSOR=" ++ name) else none
      tangleG := if tangleF then some ("__MMU_SENSOR_TANGLE SENSOR=" ++ name) else none }
  { name := name
    reactor := none  -- self.reactor is never assigned in MmuHallEndstop.__init__
    sampleTime := sampleTime
    sampleCount := sampleCount
    reportTime := reportTime
    dia1 := calDia1
    rawdia1 := rawDia1
    dia2 := calDia2
    rawdia2 := rawDia2
    hallMinDiameter := hallRunoutDia
    lastFilamentWidthReading := 0
    lastFilamentWidthReading2 := 0
    diameter := 0
    isActive := true
    triggerCompletion := none
    lastTriggerTime := none
    homing := false
    triggered := false
    helper := RunoutHelper.init name (1/2) gcodes false false }

/-- Model of `MmuHallEndstop.home_start` (lines 922-932).  Its first statement is
`self._trigger_completion = self.reactor.completion()`: evaluating
`self.reactor` on an object without that attribute raises
`AttributeError`, modelled by the `none` branch of the match. -/
def HallEndstop.homeStart (o : HallEndstop) (printTime : ℚ)
    (triggered : Bool) : Except PyError HallEndstop :=
  match o.reactor with
  | none => .error (.attributeError "reactor")
  | some _ =>
    let o := { o with triggerCompletion := some false
                      lastTriggerTime := none
                      homing := true
                      triggered := triggered }
    .ok (if o.helper.filamentPresent = o.triggered then
          { o with lastTriggerTime := some printTime, triggerCompletion := some true }
        else o)

/-! ## `MmuSensors` sync-feedback aggregation (lines 1364-1446) -/

/-- Model of `MmuSensors._sync_tension_callback` (lines 1364-1404), as a pure
function of the pieces of state it reads.  `tensionEnabled` and
`tensionState` come from the invoking runout helper; `compressionLookup`
is the result of looking up the paired compression sensor: `none` when the
object does not exist, `some (enabled, filamentPresent)` otherwise.
Returns the value published with the `mmu:sync_feedback` event. -/
def syncTensionCallback (tensionEnabled tensionState : Bool)
    (compressionLookup : Option (Bool × Bool)) : ℤ :=
  let hasActiveCompression :=
    match compressionLookup with
    | some (en, _) => en
    | none => false
  let compressionState :=
    if hasActiveCompression then
      (match compressionLookup with
       | some (_, st) => st
       | none => false)
    else false
  if tensionEnabled then
    if hasActiveCompression then
      if tensionState = compressionState then 0
      else if tensionState && !compressionState then -1
      else 1
    else
      if tensionState then -1 else 1
  else
    if hasActiveCompression then
      if compressionState then 1 else -1
    else 0

/-- Model of `MmuSensors._sync_compression_callback` (lines 1406-1446), mirror image
of the tension callback: `tensionLookup` is the lookup of the paired
tension sensor. -/
def syncCompressionCallback (compressionEnabled compressionState : Bool)
    (tensionLookup : Option (Bool × Bool)) : ℤ :=
  let hasActiveTension :=
    match tensionLookup with
    | some (en, _) => en
    | none => false
  let tensionState :=
    if hasActiveTension then
      (match tensionLookup with
       | some (_, st) => st
       | none => false)
    else false
  if compressionEnabled then
    if hasActiveTension then
      if tensionState = compressionState then 0
      else if compressionState && !tensionState then 1
      else -1
    else
      if compressionState then 1 else -1
  else
    if hasActiveTension then
      if tensionState then -1 else 1
    else 0

/-! ## Trace execution helpers -/

/-- Repeated delivery of stable readings `(eventtime, is_present, is_printing)`
to `note_filament_present`, counting how many deferred handlers get
registered along the way.  Models a burst of edges arriving while no
deferred handler has yet run (`_exec_gcode` is never interleaved). -/
def runNotes : RunoutHelper → List (ℚ × Bool × Bool) → RunoutHelper × ℕ
  | h, [] => (h, 0)
  | h, (t, p, pr) :: rest =>
    let r := noteFilamentPresent h t p pr
    let rec2 := runNotes r.state rest
    (rec2.1, (if r.pending.isSome then 1 else 0) + rec2.2)

/-- The debounce acceptance decision taken by `adc_callback` on one report
`(read_time, read_value)`: candidate-change bookkeeping followed by the
acceptance test (lines 542-549). -/
def adcAcceptedStep (s : AdcSwitchSensor) (rt rv : ℚ) : Bool :=
  let c := adcIsPresent s.aMin s.aMax s.pullup rv
  debounceAccept (debounceTimeUpdate s rt c) rt c

/-- Run `adc_callback` over a list of reports, counting accepted (stable)
transitions. -/
def countAccepted : AdcSwitchSensor → List (ℚ × ℚ) → Bool → ℕ
  | _, [], _ => 0
  | s, (rt, rv) :: rest, pr =>
    (if adcAcceptedStep s rt rv then 1 else 0)
      + countAccepted (adcCallback s rt rv pr).1 rest pr

/-- Predicate `flipSeq lb aMin aMax pullup rs` holds when every report in `rs` is a
candidate flip: its classified candidate differs from the candidate of the
preceding report (`lb` being the `last_button` value before the first). -/
def flipSeq (lb : Option Bool) (aMin aMax pullup : ℚ) : List (ℚ × ℚ) → Bool
  | [] => true
  | (_, rv) :: rest =>
    (some (adcIsPresent aMin aMax pullup rv) ≠ lb)
      && flipSeq (some (adcIsPresent aMin aMax pullup rv)) aMin aMax pullup rest

/-! ## Concrete instances used by counterexamples and witnesses -/

/-- A gate sensor helper in its post-warm-up state: printing-time runout
monitoring configured (`runout` response set, no `remove` response),
`runout_suspended` still in its initial `None` (Unset) state, an edge
suppression window that has already expired, filament currently present. -/
def c1Helper : RunoutHelper :=
  { name := "mmu_gate"
    gcodes := { insertG := none, removeG := none
                runoutG := some "__MMU_SENSOR_RUNOUT SENSOR=mmu_gate"
                clogG := none, tangleG := none }
    insertRemoveInPrint := false
    hasButtonHandler := false
    minEventSystime := 5
    eventDelay := 1/2
    filamentPresent := true
    sensorEnabled := true
    runoutSuspended := none
    buttonHandlerSuspended := false }

/-- The same helper with runout monitoring explicitly restored
(`enable_runout(True)`, i.e. `runout_suspended = False`). -/
def c1HelperActive : RunoutHelper := { c1Helper with runoutSuspended := some false }

/-- A helper whose single-flight guard is armed (`min_event_systime = NEVER`),
as it is right after any dispatch. -/
def c2Helper : RunoutHelper := { c1HelperActive with minEventSystime := NEVER }

/-- A freshly initialised ADC switch sensor (gate 0 pre-gate flavour:
all three presence responses configured). -/
def c4Sensor : AdcSwitchSensor :=
  AdcSwitchSensor.init "mmu_pre_gate_0" (some 0) (1/2) 100 200 true true true true false

/-- Sensor `c4Sensor` after its warm-up, mid-stream: last candidate and last
accepted value both `absent`, debounce timer anchored at time 1. -/
def c5Sensor : AdcSwitchSensor :=
  { c4Sensor with
      helper := { c4Sensor.helper with minEventSystime := 0 }
      lastButton := some false
      lastPressed := some false
      lastDebouncetime := 1 }

/-- Sensor `c4Sensor` in the middle of an active homing move towards `absent`
(`triggered = false`), with a pending completion and the debounce state
primed so that the next absent classification is accepted. -/
def c4HomingSensor : AdcSwitchSensor :=
  { c4Sensor with
      homing := true
      triggered := false
      triggerCompletion := some false
      lastButton := some false
      lastPressed := some true
      lastDebouncetime := 0 }

/-- Sensor `c5Sensor` with the last accepted value opposite to the held candidate,
so that a sufficiently long hold produces exactly one accepted
transition. -/
def c5HeldSensor : AdcSwitchSensor := { c5Sensor with lastPressed := some true }

/-! ## Theorems -/

/-- Helper lemma: full case analysis of `_process_state_change` on a stable
absent reading (`is_filament_present = False`). -/
theorem processStateChange_absent (h : RunoutHelper) (t : ℚ) (pr : Bool) :
    processStateChange h t false pr =
      (if pr = true ∧ h.runoutSuspended = some false ∧ gcodeSet h.gcodes.runoutG = true
       then ({ h with minEventSystime := NEVER }, some (.runoutEv t "runout"))
       else if gcodeSet h.gcodes.removeG = true ∧ (pr = false ∨ h.insertRemoveInPrint = true)
       then ({ h with minEventSystime := NEVER }, some (.removeEv t))
       else (h, none)) := by
  cases hpr : pr <;> cases hir : h.insertRemoveInPrint <;>
    cases hro : gcodeSet h.gcodes.runoutG <;> cases hrm : gcodeSet h.gcodes.removeG <;>
    rcases hsus : h.runoutSuspended with _ | b <;>
    simp [processStateChange, hir, hro, hrm, hsus]

/-- Helper lemma: on a presence edge (`prev != is_present`) that is not
suppressed, `note_filament_present` delegates to `_process_state_change`
after updating `filament_present`. -/
theorem noteFilamentPresent_edge (h : RunoutHelper) (t : ℚ) (p pr : Bool)
    (hprev : h.filamentPresent ≠ p) (hmin : h.minEventSystime ≤ t)
    (hen : h.sensorEnabled = true) :
    noteFilamentPresent h t p pr =
      { state := (processStateChange { h with filamentPresent := p } t p pr).1
        buttonInvoked := h.hasButtonHandler && !h.buttonHandlerSuspended
        pending := (processStateChange { h with filamentPresent := p } t p pr).2 } := by
  simp only [noteFilamentPresent]
  rw [if_neg hprev]
  rw [if_pos (by simp [hmin, hen])]

/-- Claim C1, counterexample: a helper in the initial Unset
(`runout_suspended = None`) state, printing, with a `runout` response
configured and the warm-up suppression window expired, receives a stable
present→absent edge at time 10 — and dispatches nothing, although the claim
("a runout event is dispatched whenever `runout_suspended != Suspended`; in
particular, in the initial state where `runout_suspended` is Unset, a
qualifying absent edge during printing dispatches runout") requires a
runout dispatch here: line 184 tests `self.runout_suspended is False`,
which the Unset (`None`) state fails. -/
theorem runout_unset_no_dispatch :
    (noteFilamentPresent c1Helper 10 false true).pending = none := by
  decide

/-- Claim C1, amended: for a stable absent edge delivered while not
suppressed (window expired, sensor enabled), a runout is dispatched exactly
when printing is active, `runout_suspended` is exactly Active (`False`,
i.e. runout monitoring explicitly restored), and a runout response is
configured; otherwise a remove is dispatched exactly when a remove response
is configured and either printing is inactive or insert/remove-during-print
is permitted.  In the initial Unset state a qualifying absent edge during
printing therefore falls through to the remove rule, not to runout. -/
theorem runout_dispatch_rule (h : RunoutHelper) (t : ℚ) (pr : Bool)
    (hprev : h.filamentPresent = true) (hmin : h.minEventSystime ≤ t)
    (hen : h.sensorEnabled = true) :
    (noteFilamentPresent h t false pr).pending =
      (if pr = true ∧ h.runoutSuspended = some false
          ∧ gcodeSet h.gcodes.runoutG = true
       then some (.runoutEv t "runout")
       else if gcodeSet h.gcodes.removeG = true
          ∧ (pr = false ∨ h.insertRemoveInPrint = true)
       then some (.removeEv t)
       else none) := by
  rw [noteFilamentPresent_edge h t false pr (by simp [hprev]) hmin hen,
      processStateChange_absent]
  split_ifs <;> simp_all

/-- Claim C1, witness for the amended rule, instantiated at the helper
`c1HelperActive` (runout monitoring restored): the same qualifying absent
edge during printing does dispatch runout there. -/
theorem runout_dispatch_rule_witness :
    (noteFilamentPresent c1HelperActive 10 false true).pending =
      (if True ∧ c1HelperActive.runoutSuspended = some false
          ∧ gcodeSet c1HelperActive.gcodes.runoutG = true
       then some (.runoutEv 10 "runout")
       else if gcodeSet c1HelperActive.gcodes.removeG = true
          ∧ (False ∨ c1HelperActive.insertRemoveInPrint = true)
       then some (.removeEv 10)
       else none) := by
  have := runout_dispatch_rule c1HelperActive 10 true rfl (by decide) rfl
  simpa using this

/-- Claim C3: `_exec_gcode` is total — whatever the external executor does,
the call returns normally (the executor's exception is converted into a log
line, never re-raised), and in every case (no command, success, failure) the
result state is exactly the input state with
`min_event_systime = now + event_delay`, so a failing response re-arms the
dispatch guard just like a successful one. -/
theorem execGcode_total_and_rearms :
    ∀ (h : RunoutHelper) (cmd : Option String)
      (runScript : String → Except String Unit) (now : ℚ),
      (execGcode h cmd runScript now).1
          = { h with minEventSystime := now + h.eventDelay } ∧
      (∀ c e, cmd = some c → runScript c = .error e →
        (execGcode h cmd runScript now).2
            = ["MMU: Error running mmu sensor handler: " ++ c]) ∧
      (∀ c, cmd = some c → runScript c = .ok () →
        (execGcode h cmd runScript now).2 = []) ∧
      (cmd = none → (execGcode h cmd runScript now).2 = []) := by
  intro h cmd runScript now
  refine ⟨rfl, ?_, ?_, ?_⟩
  · intro c e hc he; subst hc; simp [execGcode, he]
  · intro c hc hk; subst hc; simp [execGcode, hk]
  · intro hc; subst hc; rfl

/-- Claim C3, witness: a response script that always raises still leaves the
helper with `min_event_systime = 7 + 1/2` and only a log entry. -/
theorem execGcode_total_and_rearms_witness :
    (execGcode c1Helper (some "CMD") (fun _ => .error "boom") 7).1
        = { c1Helper with minEventSystime := 7 + (1/2 : ℚ) } ∧
    (execGcode c1Helper (some "CMD") (fun _ => .error "boom") 7).2
        = ["MMU: Error running mmu sensor handler: CMD"] := by
  have h := execGcode_total_and_rearms c1Helper (some "CMD")
    (fun _ => .error "boom") 7
  exact ⟨by rw [h.1]; rfl, h.2.1 "CMD" "boom" rfl rfl⟩

/-- Claim C6: the sync-feedback aggregation table of §4.8, for both paired
switch callbacks and all 3×3 combinations of tension/compression in
disabled / enabled-absent / enabled-present (a disabled counterpart is
covered both as an existing-but-disabled sensor and as an absent lookup).
Both enabled: 0 when states are equal, -1 when only tension is active, +1
when only compression is active; tension alone: -1 if tension present else
+1; compression alone: +1 if compression present else -1; both disabled:
0. -/
theorem sync_feedback_table :
    ∀ ts cs : Bool,
      (syncTensionCallback true ts (some (true, cs))
          = if ts = cs then 0 else if ts then -1 else 1) ∧
      (syncCompressionCallback true cs (some (true, ts))
          = if ts = cs then 0 else if cs then 1 else -1) ∧
      (syncTensionCallback true ts (some (false, cs)) = if ts then -1 else 1) ∧
      (syncTensionCallback true ts none = if ts then -1 else 1) ∧
      (syncCompressionCallback false cs (some (true, ts)) = if ts then -1 else 1) ∧
      (syncTensionCallback false ts (some (true, cs)) = if cs then 1 else -1) ∧
      (syncCompressionCallback true cs (some (false, ts)) = if cs then 1 else -1) ∧
      (syncCompressionCallback true cs none = if cs then 1 else -1) ∧
      (syncTensionCallback false ts (some (false, cs)) = 0) ∧
      (syncTensionCallback false ts none = 0) ∧
      (syncCompressionCallback false cs (some (false, ts)) = 0) ∧
      (syncCompressionCallback false cs none = 0) := by
  decide

/-- Helper lemma: the clamp is the identity on samples already inside
`[1e-5, 1 - 1e-5]`. -/
theorem clampAdc_of_mid {v : ℚ} (h1 : 1/100000 ≤ v) (h2 : v ≤ 99999/100000) :
    clampAdc v = v := by
  unfold clampAdc
  rw [min_eq_right h2, max_eq_right h1]

/-- Claim C7: switch-variant sample classification — every raw sample is
clamped into `[1e-5, 1 - 1e-5]`, the equivalent resistance is
`pullup * x / (1 - x)` of the clamped sample, presence holds exactly when
the resistance lies within `[a_min, a_max]` inclusive, and concretely with
`a_min = 100`, `a_max = 200`, `pullup = 4700` a raw value of `0.5` gives
resistance 4700 and presence `false`. -/
theorem adc_switch_sample_classification :
    (∀ v : ℚ, 1/100000 ≤ clampAdc v ∧ clampAdc v ≤ 1 - 1/100000) ∧
    (∀ aMin aMax pullup v : ℚ,
      adcIsPresent aMin aMax pullup v = true
        ↔ aMin ≤ adcResistance pullup v ∧ adcResistance pullup v ≤ aMax) ∧
    adcResistance 4700 (1/2) = 4700 ∧
    adcIsPresent 100 200 4700 (1/2) = false := by
  have hres : adcResistance 4700 (1/2) = 4700 := by
    unfold adcResistance
    rw [clampAdc_of_mid (by norm_num) (by norm_num)]
    norm_num
  refine ⟨?_, ?_, hres, ?_⟩
  · intro v
    refine ⟨le_max_left _ _, max_le (by norm_num) ?_⟩
    exact (min_le_left _ _).trans (by norm_num)
  · intro aMin aMax pullup v
    simp [adcIsPresent]
  · unfold adcIsPresent
    rw [hres]
    have : ¬((4700:ℚ) ≤ 200) := by norm_num
    simp [this]

/-- Claim C8, failing input for the extreme-publication rule: with the
default analog calibration (`max_tension = 1`, `max_compression = 0`,
neutral point `0.5`, `gamma = 1`), a report mapping to `+1.0` publishes a
sync-feedback event, but the next report mapping to `-1.0` publishes
nothing: line 430 computes `extreme = abs(self.value)`, so both signs
record `_last_extreme = 1.0` (despite the adjacent source comment claiming
"1 or -1") and the opposite-sign extreme is swallowed as a repeat, contrary
to the claim and §4.4 of the spec. -/
theorem prop_extreme_sign_lost :
    (propAdcCallback (PropSensor.init 1 0 none 1) 1 0).2 = some (1, 1) ∧
    (propAdcCallback (propAdcCallback (PropSensor.init 1 0 none 1) 1 0).1 2 1).1.value
        = -1 ∧
    (propAdcCallback (propAdcCallback (PropSensor.init 1 0 none 1) 1 0).1 2 1).2
        = none := by
  have hinit : PropSensor.init 1 0 none 1 = ⟨1/2, 1, true, 1/2, 1/2, none, 0, 0⟩ := by
    unfold PropSensor.init
    norm_num [max_eq_left]
  have hm1 : mapReading ⟨1/2, 1, true, 1/2, 1/2, none, 0, 0⟩ 0 = 1 := by
    norm_num [mapReading]
  have hm2 : mapReading ⟨1/2, 1, true, 1/2, 1/2, some 1, 0, 1⟩ 1 = -1 := by
    norm_num [mapReading]
  have h1 : propAdcCallback (PropSensor.init 1 0 none 1) 1 0
      = (⟨1/2, 1, true, 1/2, 1/2, some 1, 0, 1⟩, some (1, 1)) := by
    rw [hinit]
    simp only [propAdcCallback, hm1]
    norm_num
    exact fun hcon => absurd hcon (Option.some_ne_none _)
  have h2 : propAdcCallback (⟨1/2, 1, true, 1/2, 1/2, some 1, 0, 1⟩ : PropSensor) 2 1
      = (⟨1/2, 1, true, 1/2, 1/2, some 1, 1, -1⟩, none) := by
    simp only [propAdcCallback, hm2]
    norm_num
  rw [h1]
  refine ⟨rfl, ?_, ?_⟩
  · show (propAdcCallback (⟨1/2, 1, true, 1/2, 1/2, some 1, 0, 1⟩ : PropSensor) 2 1).1.value = -1
    rw [h2]
  · show (propAdcCallback (⟨1/2, 1, true, 1/2, 1/2, some 1, 0, 1⟩ : PropSensor) 2 1).2 = none
    rw [h2]

/-- Claim C9: `MmuHallEndstop.home_start` always fails with an
`AttributeError` on `reactor`, for every constructor configuration and
every homing request, because `__init__` never assigns the `reactor`
attribute that `home_start`'s first statement reads. -/
theorem hallEndstop_homeStart_attribute_error :
    ∀ (name : String) (calDia1 : ℚ) (rawDia1 : ℤ) (calDia2 : ℚ) (rawDia2 : ℤ)
      (hallRunoutDia : ℚ) (iF rF roF cF tF : Bool) (st : ℚ) (sc : ℕ) (rpt : ℚ)
      (printTime : ℚ) (trig : Bool),
      HallEndstop.homeStart
        (HallEndstop.init name calDia1 rawDia1 calDia2 rawDia2 hallRunoutDia
          iF rF roF cF tF st sc rpt)
        printTime trig
        = .error (.attributeError "reactor") := by
  intros
  rfl

/-- Claim C10: `note_clog_tangle` unconditionally arms the single-flight
guard and registers the runout-style handler for the given event type —
for every helper state, including ones where `sensor_enabled` is false or
the eventtime is before `min_event_systime`; by contrast, a presence edge
delivered through `note_filament_present` is dropped in exactly those two
situations. -/
theorem noteClogTangle_bypasses_gating :
    (∀ (h : RunoutHelper) (eventType : String) (t : ℚ),
      noteClogTangle h eventType t
        = ({ h with minEventSystime := NEVER }, some (.runoutEv t eventType))) ∧
    (∀ (h : RunoutHelper) (t : ℚ) (p pr : Bool),
      h.sensorEnabled = false → h.filamentPresent ≠ p →
      (noteFilamentPresent h t p pr).pending = none) ∧
    (∀ (h : RunoutHelper) (t : ℚ) (p pr : Bool),
      t < h.minEventSystime → h.filamentPresent ≠ p →
      (noteFilamentPresent h t p pr).pending = none) := by
  refine ⟨fun h et t => rfl, ?_, ?_⟩
  · intro h t p pr hen hprev
    simp only [noteFilamentPresent]
    rw [if_neg hprev, if_neg (by simp [hen])]
  · intro h t p pr ht hprev
    simp only [noteFilamentPresent]
    rw [if_neg hprev, if_neg (by simp [not_le.mpr ht])]

/-- Claim C10, witness: a clog injection on a disabled helper whose
suppression window has not expired still dispatches, while presence edges
on a disabled or still-suppressed helper are dropped. -/
theorem noteClogTangle_bypasses_gating_witness :
    noteClogTangle { c1Helper with sensorEnabled := false } "clog" 1
        = ({ c1Helper with sensorEnabled := false, minEventSystime := NEVER },
           some (.runoutEv 1 "clog")) ∧
    (noteFilamentPresent { c1Helper with sensorEnabled := false } 10 false true).pending
        = none ∧
    (noteFilamentPresent { c1Helper with minEventSystime := 20 } 10 false true).pending
        = none := by
  refine ⟨noteClogTangle_bypasses_gating.1 _ "clog" 1, ?_, ?_⟩
  · exact noteClogTangle_bypasses_gating.2.1 _ 10 false true rfl (by decide)
  · exact noteClogTangle_bypasses_gating.2.2 _ 10 false true (by norm_num) (by decide)

/-- Helper lemma: `_process_state_change` returns one of four results —
no-op, or a `NEVER`-guarded state paired with one registered handler. -/
theorem processStateChange_cases (h : RunoutHelper) (t : ℚ) (p pr : Bool) :
    processStateChange h t p pr = (h, none) ∨
    processStateChange h t p pr
        = ({ h with minEventSystime := NEVER }, some (.insertEv t)) ∨
    processStateChange h t p pr
        = ({ h with minEventSystime := NEVER }, some (.runoutEv t "runout")) ∨
    processStateChange h t p pr
        = ({ h with minEventSystime := NEVER }, some (.removeEv t)) := by
  by_cases hp : p = true <;> by_cases hi : gcodeSet h.gcodes.insertG = true <;>
    by_cases hpr : pr = true <;> by_cases hir : h.insertRemoveInPrint = true <;>
    by_cases hsus : h.runoutSuspended = some false <;>
    by_cases hro : gcodeSet h.gcodes.runoutG = true <;>
    by_cases hrm : gcodeSet h.gcodes.removeG = true <;>
    simp [processStateChange, hp, hi, hpr, hir, hsus, hro, hrm]

/-- Helper lemma: one `note_filament_present` call either registers nothing
and keeps `min_event_systime` unchanged, or registers a handler and leaves
`min_event_systime = NEVER`. -/
theorem noteFilamentPresent_cases (h : RunoutHelper) (t : ℚ) (p pr : Bool) :
    ((noteFilamentPresent h t p pr).state.minEventSystime = h.minEventSystime ∧
      (noteFilamentPresent h t p pr).pending = none) ∨
    ((noteFilamentPresent h t p pr).state.minEventSystime = NEVER ∧
      (noteFilamentPresent h t p pr).pending.isSome = true) := by
  simp only [noteFilamentPresent]
  split_ifs with h1 h2
  · exact Or.inl ⟨rfl, rfl⟩
  · rcases processStateChange_cases { h with filamentPresent := p } t p pr with
      hc | hc | hc | hc <;> rw [hc] <;> simp
  · exact Or.inl ⟨rfl, rfl⟩

/-- Helper lemma: whenever `note_filament_present` registers a handler, the
resulting state has `min_event_systime = NEVER`. -/
theorem noteFilamentPresent_some_never (h : RunoutHelper) (t : ℚ) (p pr : Bool)
    (hs : (noteFilamentPresent h t p pr).pending.isSome = true) :
    (noteFilamentPresent h t p pr).state.minEventSystime = NEVER := by
  rcases noteFilamentPresent_cases h t p pr with ⟨_, hn⟩ | ⟨hm, _⟩
  · rw [hn] at hs; cases hs
  · exact hm

/-- Helper lemma: with the guard armed (`min_event_systime = NEVER`) and any
realistic eventtime, an edge only updates `filament_present`; nothing is
dispatched and the guard stays armed. -/
theorem noteFilamentPresent_guarded (h : RunoutHelper) (t : ℚ) (p pr : Bool)
    (hg : h.minEventSystime = NEVER) (ht : t < NEVER) :
    (noteFilamentPresent h t p pr).pending = none ∧
    (noteFilamentPresent h t p pr).state.filamentPresent = p ∧
    (noteFilamentPresent h t p pr).state.minEventSystime = NEVER := by
  have hcond : ¬(h.minEventSystime ≤ t) := by rw [hg]; exact not_le.mpr ht
  simp only [noteFilamentPresent]
  split_ifs with h1 h2
  · exact ⟨rfl, rfl, hg⟩
  · exact absurd (of_decide_eq_true ((Bool.and_eq_true _ _).mp h2).1) hcond
  · exact ⟨rfl, rfl, hg⟩

/-- Helper lemma: once the guard is armed, a whole burst of edges (all at
realistic times) registers zero handlers. -/
theorem runNotes_guarded_zero :
    ∀ (track : List (ℚ × Bool × Bool)) (h : RunoutHelper),
      (∀ r ∈ track, r.1 < NEVER) → h.minEventSystime = NEVER →
      (runNotes h track).2 = 0 := by
  intro track
  induction track with
  | nil => intro h _ _; rfl
  | cons r rest ih =>
    intro h hts hg
    obtain ⟨t, p, pr⟩ := r
    have hr := noteFilamentPresent_guarded h t p pr hg
      (hts (t, p, pr) (List.mem_cons_self _ _))
    have htail := ih (noteFilamentPresent h t p pr).state
      (fun y hy => hts y (List.mem_cons_of_mem _ hy)) hr.2.2
    simp [runNotes, hr.1, htail]

/-- Claim C2: single-flight dispatch.  (1) Every handler registration by
`note_filament_present` leaves `min_event_systime = NEVER`; (2) so does
`note_clog_tangle`, which always registers one; (3) with the guard armed, a
second qualifying edge updates `filament_present` but registers nothing and
keeps the guard armed; (4) hence along any burst of presence edges with no
deferred handler execution interleaved, at most one handler is ever
registered — at most one deferred event response per helper is
outstanding. -/
theorem single_flight_dispatch :
    (∀ (h : RunoutHelper) (t : ℚ) (p pr : Bool),
      (noteFilamentPresent h t p pr).pending.isSome = true →
      (noteFilamentPresent h t p pr).state.minEventSystime = NEVER) ∧
    (∀ (h : RunoutHelper) (eventType : String) (t : ℚ),
      (noteClogTangle h eventType t).1.minEventSystime = NEVER ∧
      (noteClogTangle h eventType t).2.isSome = true) ∧
    (∀ (h : RunoutHelper) (t : ℚ) (p pr : Bool),
      h.minEventSystime = NEVER → t < NEVER →
      (noteFilamentPresent h t p pr).pending = none ∧
      (noteFilamentPresent h t p pr).state.filamentPresent = p) ∧
    (∀ (h : RunoutHelper) (track : List (ℚ × Bool × Bool)),
      (∀ r ∈ track, r.1 < NEVER) → (runNotes h track).2 ≤ 1) := by
  refine ⟨noteFilamentPresent_some_never, fun h et t => ⟨rfl, rfl⟩, ?_, ?_⟩
  · intro h t p pr hg ht
    exact ⟨(noteFilamentPresent_guarded h t p pr hg ht).1,
           (noteFilamentPresent_guarded h t p pr hg ht).2.1⟩
  · intro h track
    induction track generalizing h with
    | nil => intro _; simp [runNotes]
    | cons r rest ih =>
      intro hts
      obtain ⟨t, p, pr⟩ := r
      cases ho : (noteFilamentPresent h t p pr).pending with
      | some x =>
        have hs : (noteFilamentPresent h t p pr).pending.isSome = true := by
          rw [ho]; rfl
        have hnever := noteFilamentPresent_some_never h t p pr hs
        have hzero := runNotes_guarded_zero rest (noteFilamentPresent h t p pr).state
          (fun y hy => hts y (List.mem_cons_of_mem _ hy)) hnever
        simp [runNotes, ho, hzero]
      | none =>
        have htail := ih (noteFilamentPresent h t p pr).state
          (fun y hy => hts y (List.mem_cons_of_mem _ hy))
        simpa [runNotes, ho] using htail

/-- Claim C2, witness: a runout dispatch arms the guard; a guarded helper
swallows a second edge while tracking presence; a two-edge burst registers
at most one handler. -/
theorem single_flight_dispatch_witness :
    (noteFilamentPresent c1HelperActive 10 false true).state.minEventSystime
        = NEVER ∧
    (noteFilamentPresent c2Helper 10 false true).pending = none ∧
    (runNotes c2Helper [(10, false, true), (11, true, true)]).2 ≤ 1 :=
  ⟨single_flight_dispatch.1 c1HelperActive 10 false true (by decide),
   (single_flight_dispatch.2.2.1 c2Helper 10 false true rfl (by decide)).1,
   single_flight_dispatch.2.2.2 c2Helper _ (by decide)⟩

/-- Helper lemma: the acceptance test computed inside `adc_callback` (on the
state whose `lastReadTime` was just stamped) agrees with `adcAcceptedStep`
on the original state. -/
theorem adcAcceptedStep_eq_internal (s : AdcSwitchSensor) (rt rv : ℚ) :
    debounceAccept
      (debounceTimeUpdate { s with lastReadTime := rt } rt
        (adcIsPresent s.aMin s.aMax s.pullup rv)) rt
      (adcIsPresent s.aMin s.aMax s.pullup rv)
      = adcAcceptedStep s rt rv := by
  unfold adcAcceptedStep debounceTimeUpdate debounceAccept
  by_cases hflip :
      some (adcIsPresent s.aMin s.aMax s.pullup rv) ≠ s.lastButton <;>
    simp [hflip]

/-- Helper lemma: the acceptance condition spelled out — stable for the full
debounce window, unchanged since the previous report, different from the
last accepted value. -/
theorem adcAcceptedStep_iff (s : AdcSwitchSensor) (rt rv : ℚ) :
    adcAcceptedStep s rt rv = true ↔
      (s.adcDebounceTime ≤ rt - s.lastDebouncetime ∧
       s.lastButton = some (adcIsPresent s.aMin s.aMax s.pullup rv) ∧
       s.lastPressed ≠ some (adcIsPresent s.aMin s.aMax s.pullup rv)) := by
  unfold adcAcceptedStep debounceTimeUpdate debounceAccept
  by_cases hflip :
      some (adcIsPresent s.aMin s.aMax s.pullup rv) ≠ s.lastButton
  · simp only [hflip, if_true, decide_eq_true_eq, Bool.and_eq_true, ne_eq,
      decide_not, Bool.not_eq_true]
    simp
    constructor
    · rintro ⟨⟨_, hb⟩, _⟩
      exact absurd hb.symm hflip
    · rintro ⟨_, hb, _⟩
      exact absurd hb.symm hflip
  · simp [hflip, and_assoc]

/-- Helper lemma: when the debounce gate rejects the report, `adc_callback`
only stamps `lastReadTime`, restarts the candidate timer on a flip, and
records the candidate in `last_button`; nothing is forwarded. -/
theorem adcCallback_not_accepted (s : AdcSwitchSensor) (rt rv : ℚ) (pr : Bool)
    (hacc : adcAcceptedStep s rt rv = false) :
    adcCallback s rt rv pr =
      ({ s with
          lastReadTime := rt
          lastDebouncetime :=
            if some (adcIsPresent s.aMin s.aMax s.pullup rv) ≠ s.lastButton
            then rt else s.lastDebouncetime
          lastButton := some (adcIsPresent s.aMin s.aMax s.pullup rv) }, none) := by
  simp only [adcCallback]
  rw [adcAcceptedStep_eq_internal, hacc]
  by_cases hflip : some (adcIsPresent s.aMin s.aMax s.pullup rv) ≠ s.lastButton <;>
    simp [debounceTimeUpdate, hflip]

/-- Helper lemma: when the debounce gate accepts the report, `adc_callback`
records the candidate as `last_pressed`/`last_button`, forwards it to the
runout helper when required, and services an active homing request whose
target matches. -/
theorem adcCallback_accepted (s : AdcSwitchSensor) (rt rv : ℚ) (pr : Bool)
    (hacc : adcAcceptedStep s rt rv = true) :
    adcCallback s rt rv pr =
      (let c := adcIsPresent s.aMin s.aMax s.pullup rv
       let hp : RunoutHelper × Option Pending :=
         if s.helper.hasButtonHandler = true ∨ c ≠ s.helper.filamentPresent then
           ((noteFilamentPresent s.helper rt c pr).state,
            (noteFilamentPresent s.helper rt c pr).pending)
         else (s.helper, none)
       let fulfil : Prop :=
         s.homing = true ∧ c = s.triggered ∧ s.triggerCompletion ≠ none
       ({ s with
           lastReadTime := rt
           lastPressed := some c
           helper := hp.1
           lastTriggerTime :=
             if fulfil then some rt else s.lastTriggerTime
           triggerCompletion :=
             if fulfil then none else s.triggerCompletion
           lastButton := some c }, hp.2)) := by
  have hnoflip : s.lastButton = some (adcIsPresent s.aMin s.aMax s.pullup rv) :=
    ((adcAcceptedStep_iff s rt rv).mp hacc).2.1
  simp only [adcCallback]
  rw [adcAcceptedStep_eq_internal, hacc]
  rw [show debounceTimeUpdate { s with lastReadTime := rt } rt
      (adcIsPresent s.aMin s.aMax s.pullup rv) = { s with lastReadTime := rt } by
    unfold debounceTimeUpdate
    rw [if_neg (by simp [← hnoflip])]]
  by_cases hb : s.helper.hasButtonHandler = true
      ∨ adcIsPresent s.aMin s.aMax s.pullup rv ≠ s.helper.filamentPresent <;>
  by_cases hh : s.homing = true <;>
  by_cases htr : adcIsPresent s.aMin s.aMax s.pullup rv = s.triggered <;>
  by_cases hcmp : s.triggerCompletion ≠ none <;>
    simp [hb, hh, htr, hcmp]

/-- Helper lemma: shared concrete sample evaluations — raw `0.5` classifies
as absent (resistance 4700, outside `[100, 200]`), raw `3/97` classifies as
present (resistance 150). -/
theorem adcIsPresent_evals :
    adcResistance 4700 (1/2) = 4700 ∧
    adcIsPresent 100 200 4700 (1/2) = false ∧
    adcIsPresent 100 200 4700 (3/97) = true := by
  have h1 : adcResistance 4700 (1/2) = 4700 := by
    unfold adcResistance
    rw [clampAdc_of_mid (by norm_num) (by norm_num)]
    norm_num
  have h2 : adcResistance 4700 (3/97) = 150 := by
    unfold adcResistance
    rw [clampAdc_of_mid (by norm_num) (by norm_num)]
    norm_num
  refine ⟨h1, ?_, ?_⟩
  · unfold adcIsPresent
    rw [h1]
    have : ¬((4700:ℚ) ≤ 200) := by norm_num
    simp [this]
  · unfold adcIsPresent
    rw [h2]
    have ha : (100:ℚ) ≤ 150 := by norm_num
    have hb : (150:ℚ) ≤ 200 := by norm_num
    simp [ha, hb]

/-- Claim C4: the homing contract of the ADC sensor base.  `home_start`
marks homing active with a fresh pending completion and, when
`filament_present` already equals the target, records `print_time` and
fulfils immediately; an accepted (debounced) reading matching the target
while homing is active with a live completion records the reading time and
consumes the completion (so only the first match records); a rejected
reading never touches the trigger state; `home_wait` clears homing state
and returns the recorded trigger time exactly when one was recorded,
raising the "no trigger" error otherwise. -/
theorem homing_contract :
    (∀ (s : AdcSwitchSensor) (pt : ℚ) (trig : Bool),
      (s.homeStart pt trig).homing = true ∧
      (s.homeStart pt trig).triggered = trig ∧
      (s.helper.filamentPresent = trig →
        (s.homeStart pt trig).lastTriggerTime = some pt ∧
        (s.homeStart pt trig).triggerCompletion = some true) ∧
      (s.helper.filamentPresent ≠ trig →
        (s.homeStart pt trig).lastTriggerTime = none ∧
        (s.homeStart pt trig).triggerCompletion = some false)) ∧
    (∀ (s : AdcSwitchSensor) (rt rv : ℚ) (pr : Bool),
      adcAcceptedStep s rt rv = true → s.homing = true →
      adcIsPresent s.aMin s.aMax s.pullup rv = s.triggered →
      s.triggerCompletion ≠ none →
      (adcCallback s rt rv pr).1.lastTriggerTime = some rt ∧
      (adcCallback s rt rv pr).1.triggerCompletion = none) ∧
    (∀ (s : AdcSwitchSensor) (rt rv : ℚ) (pr : Bool),
      adcAcceptedStep s rt rv = false →
      (adcCallback s rt rv pr).1.lastTriggerTime = s.lastTriggerTime ∧
      (adcCallback s rt rv pr).1.triggerCompletion = s.triggerCompletion ∧
      (adcCallback s rt rv pr).1.homing = s.homing) ∧
    (∀ s : AdcSwitchSensor,
      s.homeWait.1.homing = false ∧
      s.homeWait.1.triggerCompletion = none ∧
      (s.lastTriggerTime = none →
        s.homeWait.2 = .error ("No trigger on " ++ s.helper.name
          ++ " after full movement")) ∧
      (∀ t, s.lastTriggerTime = some t → s.homeWait.2 = .ok t)) := by
  refine ⟨?_, ?_, ?_, ?_⟩
  · intro s pt trig
    unfold AdcSwitchSensor.homeStart
    by_cases hf : s.helper.filamentPresent = trig <;> simp [hf]
  · intro s rt rv pr hacc hh htr hcmp
    rw [adcCallback_accepted s rt rv pr hacc]
    simp [hh, htr, hcmp]
  · intro s rt rv pr hacc
    rw [adcCallback_not_accepted s rt rv pr hacc]
    simp
  · intro s
    unfold AdcSwitchSensor.homeWait
    cases hl : s.lastTriggerTime <;> simp [hl]

/-- Claim C4, witness: starting a homing move towards the state the sensor
is already in fulfils immediately with the start time; an accepted matching
reading fulfils an outstanding request with the reading time; `home_wait`
without any recorded trigger raises. -/
theorem homing_contract_witness :
    ((c4Sensor.homeStart 3 false).lastTriggerTime = some 3 ∧
     (c4Sensor.homeStart 3 false).triggerCompletion = some true) ∧
    ((adcCallback c4HomingSensor 1 (1/2) false).1.lastTriggerTime = some 1 ∧
     (adcCallback c4HomingSensor 1 (1/2) false).1.triggerCompletion = none) ∧
    c4Sensor.homeWait.2 = .error ("No trigger on " ++ c4Sensor.helper.name
      ++ " after full movement") := by
  refine ⟨(homing_contract.1 c4Sensor 3 false).2.2.1 rfl, ?_, ?_⟩
  · refine homing_contract.2.1 c4HomingSensor 1 (1/2) false ?_ rfl ?_ (by decide)
    · exact (adcAcceptedStep_iff c4HomingSensor 1 (1/2)).mpr
        ⟨by norm_num [c4HomingSensor, c5Sensor, c4Sensor, AdcSwitchSensor.init],
         by rw [show c4HomingSensor.aMin = 100 from rfl,
                show c4HomingSensor.aMax = 200 from rfl,
                show c4HomingSensor.pullup = 4700 from rfl,
                adcIsPresent_evals.2.1]; rfl,
         by rw [show c4HomingSensor.aMin = 100 from rfl,
                show c4HomingSensor.aMax = 200 from rfl,
                show c4HomingSensor.pullup = 4700 from rfl,
                adcIsPresent_evals.2.1]; decide⟩
    · rw [show c4HomingSensor.aMin = 100 from rfl,
          show c4HomingSensor.aMax = 200 from rfl,
          show c4HomingSensor.pullup = 4700 from rfl,
          adcIsPresent_evals.2.1]
      rfl
  · exact (homing_contract.2.2.2 c4Sensor).2.2.1 rfl

/-- Helper lemma: the calibration and debounce bookkeeping fields after one
`adc_callback` report — calibration constants never change, `last_button`
records the candidate, `last_pressed` changes exactly on acceptance, and
the candidate timer restarts exactly on a flip. -/
theorem adcCallback_fields (s : AdcSwitchSensor) (rt rv : ℚ) (pr : Bool) :
    (adcCallback s rt rv pr).1.aMin = s.aMin ∧
    (adcCallback s rt rv pr).1.aMax = s.aMax ∧
    (adcCallback s rt rv pr).1.pullup = s.pullup ∧
    (adcCallback s rt rv pr).1.adcDebounceTime = s.adcDebounceTime ∧
    (adcCallback s rt rv pr).1.lastButton
        = some (adcIsPresent s.aMin s.aMax s.pullup rv) ∧
    (adcCallback s rt rv pr).1.lastPressed
        = (if adcAcceptedStep s rt rv then
            some (adcIsPresent s.aMin s.aMax s.pullup rv)
          else s.lastPressed) ∧
    (adcCallback s rt rv pr).1.lastDebouncetime
        = (if some (adcIsPresent s.aMin s.aMax s.pullup rv) ≠ s.lastButton then rt
           else s.lastDebouncetime) := by
  cases hacc : adcAcceptedStep s rt rv
  · rw [adcCallback_not_accepted s rt rv pr hacc]
    simp
  · rw [adcCallback_accepted s rt rv pr hacc]
    have hnoflip := ((adcAcceptedStep_iff s rt rv).mp hacc).2.1
    simp [← hnoflip]

/-- Helper lemma: a candidate flip is never accepted. -/
theorem adcAcceptedStep_flip (s : AdcSwitchSensor) (rt rv : ℚ)
    (hflip : some (adcIsPresent s.aMin s.aMax s.pullup rv) ≠ s.lastButton) :
    adcAcceptedStep s rt rv = false := by
  rw [Bool.eq_false_iff]
  intro hacc
  exact hflip ((adcAcceptedStep_iff s rt rv).mp hacc).2.1.symm

/-- Helper lemma: an alternating (flip-every-report) sequence produces zero
accepted transitions, whatever the report times. -/
theorem countAccepted_flips :
    ∀ (rs : List (ℚ × ℚ)) (s : AdcSwitchSensor) (pr : Bool),
      flipSeq s.lastButton s.aMin s.aMax s.pullup rs = true →
      countAccepted s rs pr = 0 := by
  intro rs
  induction rs with
  | nil => intro s pr _; rfl
  | cons r rest ih =>
    intro s pr hflip
    obtain ⟨rt, rv⟩ := r
    simp only [flipSeq, Bool.and_eq_true, decide_eq_true_eq] at hflip
    have hacc := adcAcceptedStep_flip s rt rv hflip.1
    have hf := adcCallback_fields s rt rv pr
    have hnext : flipSeq (adcCallback s rt rv pr).1.lastButton
        (adcCallback s rt rv pr).1.aMin (adcCallback s rt rv pr).1.aMax
        (adcCallback s rt rv pr).1.pullup rest = true := by
      rw [hf.1, hf.2.1, hf.2.2.1, hf.2.2.2.2.1]
      exact hflip.2
    simp only [countAccepted, hacc, if_false, Bool.false_eq_true]
    simpa using ih (adcCallback s rt rv pr).1 pr hnext

/-- Helper lemma: once the candidate equals the last accepted value, a
steady stream of reports with that same candidate is never accepted
again. -/
theorem countAccepted_steady :
    ∀ (rs : List (ℚ × ℚ)) (s : AdcSwitchSensor) (pr : Bool) (b : Bool),
      s.lastPressed = some b →
      (∀ r ∈ rs, adcIsPresent s.aMin s.aMax s.pullup r.2 = b) →
      countAccepted s rs pr = 0 := by
  intro rs
  induction rs with
  | nil => intro s pr b _ _; rfl
  | cons r rest ih =>
    intro s pr b hlp hcand
    obtain ⟨rt, rv⟩ := r
    have hcv : adcIsPresent s.aMin s.aMax s.pullup rv = b :=
      hcand (rt, rv) (List.mem_cons_self _ _)
    have hacc : adcAcceptedStep s rt rv = false := by
      rw [Bool.eq_false_iff]
      intro hacc
      exact ((adcAcceptedStep_iff s rt rv).mp hacc).2.2 (by rw [hcv, ← hlp])
    have hf := adcCallback_fields s rt rv pr
    simp only [countAccepted, hacc, if_false, Bool.false_eq_true]
    rw [Nat.zero_add]
    refine ih (adcCallback s rt rv pr).1 pr b ?_ ?_
    · rw [hf.2.2.2.2.2.1, hacc]
      simpa using hlp
    · intro y hy
      rw [hf.1, hf.2.1, hf.2.2.1]
      exact hcand y (List.mem_cons_of_mem _ hy)

/-- Helper lemma: a candidate held steadily (every report classifies to the
same value `b`, `last_button` already `b`, `last_accepted` different)
produces exactly one accepted transition as soon as some report clears the
debounce window, and none before. -/
theorem countAccepted_held :
    ∀ (rs : List (ℚ × ℚ)) (s : AdcSwitchSensor) (pr : Bool) (b : Bool),
      s.lastButton = some b → s.lastPressed ≠ some b →
      (∀ r ∈ rs, adcIsPresent s.aMin s.aMax s.pullup r.2 = b) →
      countAccepted s rs pr =
        (if rs.any (fun r => decide (s.adcDebounceTime ≤ r.1 - s.lastDebouncetime))
         then 1 else 0) := by
  intro rs
  induction rs with
  | nil => intro s pr b _ _ _; rfl
  | cons r rest ih =>
    intro s pr b hlb hlp hcand
    obtain ⟨rt, rv⟩ := r
    have hcv : adcIsPresent s.aMin s.aMax s.pullup rv = b :=
      hcand (rt, rv) (List.mem_cons_self _ _)
    have hf := adcCallback_fields s rt rv pr
    have hnoflip : ¬(some (adcIsPresent s.aMin s.aMax s.pullup rv) ≠ s.lastButton) := by
      rw [hcv, hlb]
      exact not_ne_iff.mpr rfl
    by_cases hwin : s.adcDebounceTime ≤ rt - s.lastDebouncetime
    · have hacc : adcAcceptedStep s rt rv = true :=
        (adcAcceptedStep_iff s rt rv).mpr ⟨hwin, by rw [hcv, hlb], by rw [hcv]; exact hlp⟩
      have hzero : countAccepted (adcCallback s rt rv pr).1 rest pr = 0 := by
        refine countAccepted_steady rest (adcCallback s rt rv pr).1 pr b ?_ ?_
        · rw [hf.2.2.2.2.2.1, hacc]
          simp [hcv]
        · intro y hy
          rw [hf.1, hf.2.1, hf.2.2.1]
          exact hcand y (List.mem_cons_of_mem _ hy)
      simp only [countAccepted, hacc, if_true, hzero, List.any_cons]
      rw [if_pos]
      simp [hwin]
    · have hacc : adcAcceptedStep s rt rv = false := by
        rw [Bool.eq_false_iff]
        intro hacc
        exact hwin ((adcAcceptedStep_iff s rt rv).mp hacc).1
      have hrest := ih (adcCallback s rt rv pr).1 pr b
        (by rw [hf.2.2.2.2.1, hcv])
        (by rw [hf.2.2.2.2.2.1, hacc]; exact hlp)
        (by intro y hy
            rw [hf.1, hf.2.1, hf.2.2.1]
            exact hcand y (List.mem_cons_of_mem _ hy))
      have hd : (adcCallback s rt rv pr).1.lastDebouncetime = s.lastDebouncetime := by
        rw [hf.2.2.2.2.2.2, if_neg hnoflip]
      have hw : (adcCallback s rt rv pr).1.adcDebounceTime = s.adcDebounceTime :=
        hf.2.2.2.1
      simp only [countAccepted, hacc, if_false, Bool.false_eq_true]
      rw [Nat.zero_add, hrest, hd, hw]
      have hwd : decide (s.adcDebounceTime ≤ rt - s.lastDebouncetime) = false :=
        decide_eq_false hwin
      rw [List.any_cons, hwd, Bool.false_or]

/-- Claim C5: debounce acceptance in the ADC switch sensor.  A report is
accepted exactly when the elapsed time since the last candidate change has
reached the debounce window, the candidate equals the previous report's
candidate, and it differs from the last accepted value; `last_pressed` is
updated exactly on acceptance, and a rejected report forwards nothing to
the runout helper.  Consequently a sequence of candidate flips produces
zero accepted transitions, and a steadily held candidate produces exactly
one accepted transition once (and only if) some report clears the debounce
window. -/
theorem debounce_acceptance :
    (∀ (s : AdcSwitchSensor) (rt rv : ℚ),
      adcAcceptedStep s rt rv = true ↔
        (s.adcDebounceTime ≤ rt - s.lastDebouncetime ∧
         s.lastButton = some (adcIsPresent s.aMin s.aMax s.pullup rv) ∧
         s.lastPressed ≠ some (adcIsPresent s.aMin s.aMax s.pullup rv))) ∧
    (∀ (s : AdcSwitchSensor) (rt rv : ℚ) (pr : Bool),
      (adcCallback s rt rv pr).1.lastPressed =
        (if adcAcceptedStep s rt rv then
          some (adcIsPresent s.aMin s.aMax s.pullup rv)
        else s.lastPressed)) ∧
    (∀ (s : AdcSwitchSensor) (rt rv : ℚ) (pr : Bool),
      adcAcceptedStep s rt rv = false →
      (adcCallback s rt rv pr).1.helper = s.helper ∧
      (adcCallback s rt rv pr).2 = none) ∧
    (∀ (rs : List (ℚ × ℚ)) (s : AdcSwitchSensor) (pr : Bool),
      flipSeq s.lastButton s.aMin s.aMax s.pullup rs = true →
      countAccepted s rs pr = 0) ∧
    (∀ (rs : List (ℚ × ℚ)) (s : AdcSwitchSensor) (pr : Bool) (b : Bool),
      s.lastButton = some b → s.lastPressed ≠ some b →
      (∀ r ∈ rs, adcIsPresent s.aMin s.aMax s.pullup r.2 = b) →
      countAccepted s rs pr =
        (if rs.any (fun r => decide (s.adcDebounceTime ≤ r.1 - s.lastDebouncetime))
         then 1 else 0)) := by
  refine ⟨adcAcceptedStep_iff, ?_, ?_, countAccepted_flips, countAccepted_held⟩
  · intro s rt rv pr
    exact (adcCallback_fields s rt rv pr).2.2.2.2.2.1
  · intro s rt rv pr hacc
    rw [adcCallback_not_accepted s rt rv pr hacc]
    exact ⟨rfl, rfl⟩

/-- Claim C5, witness: one flip report yields zero accepted transitions; a
candidate held over two reports on an anchored timer yields exactly the
window-controlled count. -/
theorem debounce_acceptance_witness :
    countAccepted c5Sensor [(2, 3/97)] true = 0 ∧
    countAccepted c5HeldSensor [(101/100, 1/2), (104/100, 1/2)] true =
      (if ([((101:ℚ)/100, (1:ℚ)/2), (104/100, 1/2)].any
          (fun r => decide (c5HeldSensor.adcDebounceTime
            ≤ r.1 - c5HeldSensor.lastDebouncetime))) then 1 else 0) := by
  constructor
  · refine debounce_acceptance.2.2.2.1 [(2, 3/97)] c5Sensor true ?_
    show flipSeq (some false) 100 200 4700 [(2, 3/97)] = true
    simp only [flipSeq, adcIsPresent_evals.2.2]
    decide
  · refine debounce_acceptance.2.2.2.2 [(101/100, 1/2), (104/100, 1/2)]
      c5HeldSensor true false rfl (by decide) ?_
    intro r hr
    fin_cases hr
    · exact adcIsPresent_evals.2.1
    · exact adcIsPresent_evals.2.1
